import Mathlib

/-!
Shallow embedding of the job lifecycle and progress-distribution subsystem of
the commute-planner repository.

Sources embedded:
* backend resolvers (`pkg/resolvers/resolver.go`): `CreateJob`, `UpdateJob`;
* backend HTTP handler (`cmd/main.go`): the `/graphql` createJob branch, which
  creates a job and then pushes a dispatch descriptor to the Redis queue;
* backend redis client (`pkg/redis`): `JobMessage` (JSON keys `job_id`,
  `user_id`, `target_date`, `input_data` with `omitempty`) and `AddJobToQueue`;
* gateway redis service (`services/redis.ts`): `JobData` (keys `job_id`,
  `user_id`, `target_date` only), `pushJob`, `getQueueLength`, the
  `progressListeners` map with `subscribeToJobProgress` / `subscribeToAllProgress`,
  and the progress-channel subscriber callback installed in `connect`;
* gateway server startup (`index.ts`): the `subscribeToAllProgress` listener
  that republishes each event to the per-job and aggregate PubSub topics;
* gateway resolvers (`resolvers.ts`): `createCommuteJob`.

Machine conventions: UUID generation is modelled as a fresh-id counter carried
by the store (`nextId`), timestamps as natural numbers, and the float `progress`
field as a rational (only the exact literals 0.0 and 1.0 occur in the embedded
code paths).  Fallible external effects (backend HTTP call reachable, Redis
reachable) are modelled by explicit boolean availability flags.
-/

/-- Job status enumeration from `generated.go`. -/
inductive JobStatus
  | PENDING
  | IN_PROGRESS
  | COMPLETED
  | FAILED
deriving DecidableEq, Repr

/-- The `Job` row (`generated.go` `type Job struct`), restricted to the scalar
columns the embedded operations read and write. -/
structure Job where
  id : Nat
  userId : String
  status : JobStatus
  progress : Rat
  currentStep : Option String
  targetDate : String
  inputData : Option String
  result : Option String
  errorMessage : Option String
  createdAt : Nat
  updatedAt : Nat
deriving DecidableEq, Repr

/-- The durable job store: the `jobs` table plus the fresh-id supply that
models `uuid.New()` (each creation consumes `nextId`). -/
structure JobStore where
  jobs : List Job
  nextId : Nat
deriving Repr

/-- Well-formedness: every stored row's id was produced by the fresh-id
supply, i.e. is below the next id to be handed out. -/
def JobStore.WF (s : JobStore) : Prop := ∀ j ∈ s.jobs, j.id < s.nextId

/-- Input of `CreateJob` (`resolver.go` `CreateJobInput`). -/
structure CreateJobInput where
  userId : String
  targetDate : String
  inputData : Option String
deriving DecidableEq, Repr

/-- `Resolver.CreateJob` (`resolver.go`): INSERT with a fresh id, status
forced to `PENDING`, progress `0.0`, both timestamps set to now; returns the
inserted row. -/
def createJob (s : JobStore) (input : CreateJobInput) (now : Nat) : Job × JobStore :=
  let job : Job :=
    { id := s.nextId
      userId := input.userId
      status := JobStatus.PENDING
      progress := 0
      currentStep := none
      targetDate := input.targetDate
      inputData := input.inputData
      result := none
      errorMessage := none
      createdAt := now
      updatedAt := now }
  (job, { jobs := s.jobs ++ [job], nextId := s.nextId + 1 })

/-- Input of `Resolver.UpdateJob` (`resolver.go` `UpdateJobInput`): all five
updatable columns are optional pointers. -/
structure UpdateJobInput where
  status : Option JobStatus
  progress : Option Rat
  currentStep : Option String
  result : Option String
  errorMessage : Option String
deriving DecidableEq, Repr

/-- The row mutation performed by the UPDATE statement `UpdateJob` builds:
`updated_at = NOW()` always, plus `column = value` for each non-nil input
field.  Columns `id`, `user_id`, `target_date`, `input_data`, `created_at`
never appear in the SET clause. -/
def applyUpdate (j : Job) (input : UpdateJobInput) (now : Nat) : Job :=
  { j with
    updatedAt := now
    status := input.status.getD j.status
    progress := input.progress.getD j.progress
    currentStep := match input.currentStep with
      | some c => some c
      | none => j.currentStep
    result := match input.result with
      | some r => some r
      | none => j.result
    errorMessage := match input.errorMessage with
      | some e => some e
      | none => j.errorMessage }

/-- `Resolver.GetJob` / the `RETURNING` row lookup: SELECT by primary key. -/
def getJob (s : JobStore) (id : Nat) : Option Job :=
  s.jobs.find? (fun j => j.id == id)

/-- `Resolver.UpdateJob` (`resolver.go`): UPDATE ... WHERE id = $n RETURNING;
`sql.ErrNoRows` becomes the error string "job not found". -/
def updateJob (s : JobStore) (id : Nat) (input : UpdateJobInput) (now : Nat) :
    Except String (Job × JobStore) :=
  match s.jobs.find? (fun j => j.id == id) with
  | none => Except.error "job not found"
  | some j =>
      let j2 := applyUpdate j input now
      Except.ok (j2, { jobs := s.jobs.map (fun x => if x.id == id then j2 else x)
                       nextId := s.nextId })

/-- A dispatch descriptor on the Redis `commute_jobs` queue.  `input_data =
none` models the JSON key being absent: the Go `JobMessage` marshals with
`omitempty` on the `*string`, and the gateway `JobData` has no such field at
all. -/
structure Descriptor where
  job_id : Nat
  user_id : String
  target_date : String
  input_data : Option String
deriving DecidableEq, Repr

/-- The JSON object keys of a serialized descriptor. -/
def Descriptor.keys (d : Descriptor) : List String :=
  ["job_id", "user_id", "target_date"] ++
    (match d.input_data with
      | some _ => ["input_data"]
      | none => [])

/-- A progress event (`services/redis.ts` `JobProgress`). -/
structure JobProgress where
  jobId : Nat
  status : JobStatus
  progress : Rat
  currentStep : Option String
  result : Option String
  errorMessage : Option String
  timestamp : Nat
deriving DecidableEq, Repr

/-- An in-process GraphQL PubSub topic: the aggregate topic `JOB_PROGRESS`
or a per-job topic `JOB_PROGRESS_<jobId>`. -/
inductive Topic
  | aggregate
  | perJob (jobId : Nat)
deriving DecidableEq, Repr

/-- Events a subscriber on topic `t` receives from a list of publishes
(`pubsub.publish` calls in publication order): exactly the events published
on `t`, in order. -/
def deliveredTo (t : Topic) (pubs : List (Topic × JobProgress)) : List JobProgress :=
  (pubs.filter (fun p => p.1 == t)).map Prod.snd

/-- A progress listener, observed by the PubSub publishes it performs when
invoked (`services/redis.ts` listener callbacks publish via `pubsub`). -/
abbrev Listener : Type := JobProgress → List (Topic × JobProgress)

/-- Key of the gateway `progressListeners` map: `some jobId` for a per-job
listener, `none` for the global key, the literal string `*` in the source. -/
abbrev ListenerKey : Type := Option Nat

/-- The gateway `RedisService.progressListeners` field: a JS `Map` from key to
a single listener, modelled as an association list in insertion order. -/
structure ListenerMap where
  entries : List (ListenerKey × Listener)

/-- The freshly constructed service: `new Map()`. -/
def lmEmpty : ListenerMap := ⟨[]⟩

/-- JS `Map.prototype.set`: replace the value of an existing key in place,
otherwise append a new entry. -/
def lmSet (m : ListenerMap) (k : ListenerKey) (f : Listener) : ListenerMap :=
  if m.entries.any (fun e => e.1 == k) then
    ⟨m.entries.map (fun e => if e.1 == k then (k, f) else e)⟩
  else
    ⟨m.entries ++ [(k, f)]⟩

/-- JS `Map.prototype.get`. -/
def lmGet (m : ListenerMap) (k : ListenerKey) : Option Listener :=
  (m.entries.find? (fun e => e.1 == k)).map Prod.snd

/-- `RedisService.subscribeToJobProgress`: `this.progressListeners.set(jobId, listener)`. -/
def subscribeToJobProgress (jobId : Nat) (listener : Listener) (m : ListenerMap) :
    ListenerMap :=
  lmSet m (some jobId) listener

/-- `RedisService.subscribeToAllProgress`: `this.progressListeners.set('*', listener)`. -/
def subscribeToAllProgress (listener : Listener) (m : ListenerMap) : ListenerMap :=
  lmSet m none listener

/-- The progress-channel subscriber callback installed in
`RedisService.connect`: on a parsed event, invoke the listener registered for
the event's jobId (if any), then the global `*` listener (if any).  The
result collects the PubSub publishes the invoked listeners perform, in
order. -/
def relayOnMessage (m : ListenerMap) (e : JobProgress) : List (Topic × JobProgress) :=
  (match lmGet m (some e.jobId) with
    | some f => f e
    | none => []) ++
  (match lmGet m none with
    | some f => f e
    | none => [])

/-- The listener the gateway server installs at startup (`index.ts`
`redis.subscribeToAllProgress(...)`): publish the event to the per-job topic
`JOB_PROGRESS_<jobId>`, then to the aggregate topic `JOB_PROGRESS`. -/
def gatewayFanoutListener : Listener := fun progress =>
  [(Topic.perJob progress.jobId, progress), (Topic.aggregate, progress)]

/-- The listener map of a freshly started gateway process: exactly the one
global fan-out listener registered by `startServer`. -/
def gatewayListeners : ListenerMap :=
  subscribeToAllProgress gatewayFanoutListener lmEmpty

/-- `RedisService` client `lLen` call on the `commute_jobs` list: errors when
the backing store is unreachable. -/
def lLen (reachable : Bool) (queue : List Descriptor) : Except String Nat :=
  if reachable then Except.ok queue.length else Except.error "connection refused"

/-- `RedisService.getQueueLength`: try `lLen`; on any error, log and return 0. -/
def getQueueLength (reachable : Bool) (queue : List Descriptor) : Nat :=
  match lLen reachable queue with
  | Except.ok n => n
  | Except.error _ => 0

/-- Combined observable state of a submission flow: the durable job store, the
Redis `commute_jobs` list, and the PubSub publishes performed so far. -/
structure World where
  store : JobStore
  queue : List Descriptor
  published : List (Topic × JobProgress)

/-- The backend `/graphql` createJob branch (`cmd/main.go`): run
`resolver.CreateJob`, then build `jobData` from the created job and the
request's original `inputData` and call `resolver.QueueJob`, which marshals a
`JobMessage` (`input_data` omitted when nil) and LPUSHes it.  A queue failure
is only logged; the created job is returned either way. -/
def backendCreateJobHandler (w : World) (input : CreateJobInput) (now : Nat)
    (queueOk : Bool) : Job × World :=
  let r := createJob w.store input now
  let job := r.1
  let desc : Descriptor :=
    { job_id := job.id
      user_id := job.userId
      target_date := job.targetDate
      input_data := input.inputData }
  (job,
    { store := r.2
      queue := if queueOk then w.queue ++ [desc] else w.queue
      published := w.published })

/-- Errors the gateway `createCommuteJob` resolver can raise: a
`GraphQLError` with extension code `BAD_USER_INPUT` or `INTERNAL_ERROR`,
carrying only a message. -/
inductive GatewayError
  | badUserInput (message : String)
  | internalError (message : String)
deriving DecidableEq, Repr

/-- Input of the gateway `createCommuteJob` mutation
(`CreateCommuteJobInput` in `resolvers.ts`). -/
structure CreateCommuteJobInput where
  userId : String
  targetDate : String
  inputData : Option String
deriving DecidableEq, Repr

/-- The synthetic initial progress update the gateway publishes after
queueing (`resolvers.ts`, `initialProgress`). -/
def initialProgress (jobId : Nat) (now : Nat) : JobProgress :=
  { jobId := jobId
    status := JobStatus.PENDING
    progress := 0
    currentStep := some "Queued for processing"
    result := none
    errorMessage := none
    timestamp := now }

/-- The gateway `createCommuteJob` resolver (`resolvers.ts`): validate,
create the job through the backend service (whose handler also queues a
descriptor), push the gateway's own `JobData` descriptor (fields `job_id`,
`user_id`, `target_date` only), then publish the initial progress update to
the aggregate topic `JOB_PROGRESS` only.  A thrown non-GraphQL error
(backend call failure or `pushJob` failure) is replaced by the generic
`INTERNAL_ERROR` GraphQLError "Failed to create commute job".
`backendOk`, `backendQueueOk`, `gatewayQueueOk` model reachability of the
backend HTTP service, of Redis from the backend, and of Redis from the
gateway. -/
def createCommuteJob (w : World) (input : CreateCommuteJobInput) (now : Nat)
    (backendOk backendQueueOk gatewayQueueOk : Bool) :
    Except GatewayError Job × World :=
  if input.userId = "" ∨ input.targetDate = "" then
    (Except.error (GatewayError.badUserInput "userId and targetDate are required"), w)
  else if backendOk = false then
    (Except.error (GatewayError.internalError "Failed to create commute job"), w)
  else
    let r := backendCreateJobHandler w
      { userId := input.userId, targetDate := input.targetDate, inputData := input.inputData }
      now backendQueueOk
    let job := r.1
    let w1 := r.2
    if gatewayQueueOk = false then
      (Except.error (GatewayError.internalError "Failed to create commute job"), w1)
    else
      let gwDesc : Descriptor :=
        { job_id := job.id
          user_id := job.userId
          target_date := job.targetDate
          input_data := none }
      let w2 : World := { w1 with queue := w1.queue ++ [gwDesc] }
      let w3 : World :=
        { w2 with published := w2.published ++ [(Topic.aggregate, initialProgress job.id now)] }
      (Except.ok job, w3)

/-! Concrete fixtures used by the counterexample and witness theorems. -/

/-- An initially empty deployment: no jobs, empty queue, nothing published. -/
def w0 : World := { store := { jobs := [], nextId := 0 }, queue := [], published := [] }

/-- A valid submission for owner `U` on 2025-08-15 with no input data. -/
def inpU : CreateCommuteJobInput :=
  { userId := "U", targetDate := "2025-08-15", inputData := none }

/-- A valid submission that does supply input data. -/
def inpPrefs : CreateCommuteJobInput :=
  { userId := "U", targetDate := "2025-08-15", inputData := some "custom" }

/-- A job row already in the terminal state COMPLETED. -/
def jobC6 : Job :=
  { id := 7, userId := "u1", status := JobStatus.COMPLETED, progress := 1,
    currentStep := none, targetDate := "2025-08-15", inputData := none,
    result := some "r", errorMessage := none, createdAt := 0, updatedAt := 0 }

/-- A store holding only `jobC6`. -/
def storeC6 : JobStore := { jobs := [jobC6], nextId := 8 }

/-- An update that supplies only `progress` (no status field). -/
def updC6w : UpdateJobInput :=
  { status := none, progress := some 1, currentStep := none,
    result := none, errorMessage := none }

/-- An update supplying `status` and `currentStep` only. -/
def updC7w : UpdateJobInput :=
  { status := some JobStatus.IN_PROGRESS, progress := none,
    currentStep := some "Analyzing calendar", result := none, errorMessage := none }

/-- A listener that republishes to the aggregate topic. -/
def listA : Listener := fun e => [(Topic.aggregate, e)]

/-- A listener that publishes nothing. -/
def listB : Listener := fun _ => []

/-- A progress event for job 1. -/
def evJ1 : JobProgress :=
  { jobId := 1, status := JobStatus.IN_PROGRESS, progress := 1/2,
    currentStep := some "Analyzing", result := none, errorMessage := none,
    timestamp := 5 }

/-- A listener map already holding a subscriber for job 2. -/
def mC3 : ListenerMap := subscribeToJobProgress 2 listA lmEmpty

/-- A valid backend creation input. -/
def cinpU : CreateJobInput :=
  { userId := "U", targetDate := "2025-08-15", inputData := none }

/-- The partial-update contract of `updateJob` at a given call site: the call
succeeds, immutable columns and every unsupplied field are unchanged,
supplied fields are overwritten, `updated_at` is refreshed, and the store
reflects the returned row. -/
def updatePartialSemantics (s : JobStore) (id : Nat) (input : UpdateJobInput)
    (now : Nat) (j : Job) : Prop :=
  ∃ j2 s2, updateJob s id input now = Except.ok (j2, s2) ∧
    j2.id = j.id ∧ j2.userId = j.userId ∧ j2.targetDate = j.targetDate ∧
    j2.inputData = j.inputData ∧ j2.createdAt = j.createdAt ∧
    j2.updatedAt = now ∧
    (input.status = none → j2.status = j.status) ∧
    (∀ v, input.status = some v → j2.status = v) ∧
    (input.progress = none → j2.progress = j.progress) ∧
    (∀ v, input.progress = some v → j2.progress = v) ∧
    (input.currentStep = none → j2.currentStep = j.currentStep) ∧
    (∀ v, input.currentStep = some v → j2.currentStep = some v) ∧
    (input.result = none → j2.result = j.result) ∧
    (∀ v, input.result = some v → j2.result = some v) ∧
    (input.errorMessage = none → j2.errorMessage = j.errorMessage) ∧
    (∀ v, input.errorMessage = some v → j2.errorMessage = some v) ∧
    getJob s2 id = some j2

/-! Helper lemmas. -/

theorem find?_append_all_neg {α : Type} (p : α → Bool) (l l' : List α)
    (h : ∀ a ∈ l, p a = false) : (l ++ l').find? p = l'.find? p := by
  induction l with
  | nil => rfl
  | cons a l ih =>
      have ha : p a = false := h a (by simp)
      simp only [List.cons_append, List.find?, ha]
      exact ih (fun b hb => h b (by simp [hb]))

theorem find?_append_singleton_neg {α : Type} (p : α → Bool) (l : List α) (x : α)
    (hx : p x = false) : (l ++ [x]).find? p = l.find? p := by
  induction l with
  | nil => simp [List.find?, hx]
  | cons a l ih => cases hpa : p a <;> simp [List.find?, hpa, ih]

theorem findEntry_map_set_same (l : List (ListenerKey × Listener)) (k : ListenerKey)
    (f : Listener) (h : l.any (fun e => e.1 == k) = true) :
    (l.map (fun e => if e.1 == k then (k, f) else e)).find? (fun e => e.1 == k) =
      some (k, f) := by
  induction l with
  | nil => simp at h
  | cons a l ih =>
      cases ha : (a.1 == k) with
      | true =>
          rw [List.map_cons, if_pos ha, List.find?_cons_of_pos _ (by simp)]
      | false =>
          rw [List.map_cons, if_neg (by simp [ha]),
            List.find?_cons_of_neg _ (by simp [ha])]
          apply ih
          simpa [List.any_cons, ha] using h

theorem findEntry_map_set_other (l : List (ListenerKey × Listener)) (k k' : ListenerKey)
    (f : Listener) (h : k' ≠ k) :
    (l.map (fun e => if e.1 == k then (k, f) else e)).find? (fun e => e.1 == k') =
      l.find? (fun e => e.1 == k') := by
  induction l with
  | nil => rfl
  | cons a l ih =>
      cases ha : (a.1 == k) with
      | true =>
          have ha' : a.1 = k := by simpa using ha
          have hne : ((k, f).1 == k') = false := by simpa using Ne.symm h
          rw [List.map_cons, if_pos ha, List.find?_cons_of_neg _ (by simp [hne]),
            List.find?_cons_of_neg _ (by simp [ha']; exact Ne.symm h), ih]
      | false =>
        rw [List.map_cons, if_neg (by simp [ha])]
        cases hb : (a.1 == k') with
        | true =>
            rw [List.find?_cons_of_pos (p := fun (e : ListenerKey × Listener) => e.1 == k') _ hb,
              List.find?_cons_of_pos (p := fun (e : ListenerKey × Listener) => e.1 == k') _ hb]
        | false =>
            rw [List.find?_cons_of_neg (p := fun (e : ListenerKey × Listener) => e.1 == k') _ (by simp [hb]),
              List.find?_cons_of_neg (p := fun (e : ListenerKey × Listener) => e.1 == k') _ (by simp [hb])]
            exact ih

theorem lmGet_lmSet_same (m : ListenerMap) (k : ListenerKey) (f : Listener) :
    lmGet (lmSet m k f) k = some f := by
  unfold lmGet lmSet
  by_cases h : m.entries.any (fun e => e.1 == k) = true
  · rw [if_pos h, findEntry_map_set_same m.entries k f h]
    rfl
  · rw [if_neg h]
    have h' : ∀ a ∈ m.entries, (a.1 == k) = false := by
      intro a hmem
      cases hval : (a.1 == k) with
      | false => rfl
      | true => exact absurd (List.any_eq_true.mpr ⟨a, hmem, hval⟩) h
    rw [find?_append_all_neg _ _ _ h', List.find?_cons_of_pos _ (by simp)]
    rfl

theorem lmGet_lmSet_other (m : ListenerMap) (k k' : ListenerKey) (f : Listener)
    (h : k' ≠ k) : lmGet (lmSet m k f) k' = lmGet m k' := by
  unfold lmGet lmSet
  by_cases hany : m.entries.any (fun e => e.1 == k) = true
  · rw [if_pos hany, findEntry_map_set_other m.entries k k' f h]
  · rw [if_neg hany, find?_append_singleton_neg _ _ _ (by simpa using Ne.symm h)]

theorem findJob_map_update (l : List Job) (id : Nat) (j j2 : Job)
    (hfind : l.find? (fun x => x.id == id) = some j) (hid : (j2.id == id) = true) :
    (l.map (fun x => if x.id == id then j2 else x)).find? (fun x => x.id == id) =
      some j2 := by
  induction l with
  | nil => simp at hfind
  | cons a l ih =>
      cases ha : (a.id == id) with
      | true =>
          rw [List.map_cons, if_pos ha,
            List.find?_cons_of_pos (p := fun (x : Job) => x.id == id) _ hid]
      | false =>
          rw [List.map_cons, if_neg (by simp [ha]),
            List.find?_cons_of_neg (p := fun (x : Job) => x.id == id) _ (by simp [ha])]
          apply ih
          rwa [List.find?_cons_of_neg (p := fun (x : Job) => x.id == id) _
            (by simp [ha])] at hfind

theorem getJob_after_createJob (s : JobStore) (input : CreateJobInput) (now : Nat)
    (hwf : s.WF) :
    getJob (createJob s input now).2 s.nextId = some (createJob s input now).1 := by
  have hneg : ∀ a ∈ s.jobs, ((fun (j : Job) => j.id == s.nextId) a) = false := by
    intro a ha
    have := hwf a ha
    simp only [beq_eq_false_iff_ne]
    omega
  unfold getJob createJob
  rw [find?_append_all_neg _ _ _ hneg]
  simp [List.find?]

/-! Claim theorems. -/

/-- Claim C5: for every progress event the relay receives from the progress
channel, the gateway's deployed listener configuration republishes the event
unchanged to exactly two in-process topics: the per-job topic named by the
event's jobId and the aggregate topic, with no filtering or
transformation. -/
theorem relay_republishes_each_event_to_both_topics (e : JobProgress) :
    relayOnMessage gatewayListeners e =
      [(Topic.perJob e.jobId, e), (Topic.aggregate, e)] := rfl

/-- Claim C10: when the queue backing store is unreachable the underlying
length query errors, but `getQueueLength` swallows the error and returns 0 —
the same answer a reachable empty queue produces, so the two cases are
indistinguishable to the caller. -/
theorem getQueueLength_unreachable_returns_zero (q : List Descriptor) :
    lLen false q = Except.error "connection refused" ∧
    getQueueLength false q = 0 ∧
    getQueueLength false q = getQueueLength true [] :=
  ⟨rfl, rfl, rfl⟩

/-- Claim C3 counterexample: with subscriber `listA` registered for job 1 in
the gateway `progressListeners` map, registering a second subscriber `listB`
for the same job id overwrites the first registration — the map afterwards
returns `listB`, and a progress event for job 1 triggers only `listB`'s
(empty) publications, so the first subscriber no longer receives matching
events. -/
theorem second_subscriber_overwrites_first_counterexample :
    lmGet (subscribeToJobProgress 1 listA lmEmpty) (some 1) = some listA ∧
    lmGet (subscribeToJobProgress 1 listB (subscribeToJobProgress 1 listA lmEmpty))
      (some 1) ≠ some listA ∧
    relayOnMessage (subscribeToJobProgress 1 listB (subscribeToJobProgress 1 listA lmEmpty))
      evJ1 = [] ∧
    listA evJ1 = [(Topic.aggregate, evJ1)] := by
  refine ⟨rfl, ?_, rfl, rfl⟩
  intro hcontra
  have h2 : some listB = some listA := hcontra
  have hBA : listB = listA := Option.some.inj h2
  have hap := congrFun hBA evJ1
  simp [listA, listB] at hap

/-- Claim C3 (amended): the gateway listener map is single-slot per key —
registering a subscriber under a key overwrites any existing subscriber for
that same key (same job id, or the aggregate key), while the registration
under every other key is preserved unchanged. -/
theorem subscribe_overwrites_same_key_preserves_others
    (m : ListenerMap) (k k' : ListenerKey) (f : Listener) (h : k' ≠ k) :
    lmGet (lmSet m k f) k = some f ∧ lmGet (lmSet m k f) k' = lmGet m k' :=
  ⟨lmGet_lmSet_same m k f, lmGet_lmSet_other m k k' f h⟩

/-- Witness for the amended C3 theorem at concrete inputs: adding a job-1
subscriber to a map holding a job-2 subscriber installs the new listener
under job 1 and leaves job 2's registration untouched. -/
theorem subscribe_overwrites_same_key_preserves_others_witness :
    lmGet (lmSet mC3 (some 1) listB) (some 1) = some listB ∧
    lmGet (lmSet mC3 (some 1) listB) (some 2) = lmGet mC3 (some 2) :=
  subscribe_overwrites_same_key_preserves_others mC3 (some 1) (some 2) listB
    (by decide)

/-- Claim C4: on a store whose ids all came from the fresh-id supply,
`createJob` returns a job with status PENDING, progress 0.0, and an id
different from every previously stored job's id, and the resulting store
satisfies the freshness invariant again (so ids stay unique across
successive creations). -/
theorem createJob_returns_pending_zero_fresh_id
    (s : JobStore) (input : CreateJobInput) (now : Nat) (hwf : s.WF) :
    (createJob s input now).1.status = JobStatus.PENDING ∧
    (createJob s input now).1.progress = 0 ∧
    (∀ j ∈ s.jobs, j.id ≠ (createJob s input now).1.id) ∧
    (createJob s input now).2.WF := by
  refine ⟨rfl, rfl, ?_, ?_⟩
  · intro j hj
    have hlt := hwf j hj
    show j.id ≠ s.nextId
    omega
  · intro j hj
    show j.id < s.nextId + 1
    rcases List.mem_append.mp hj with hj | hj
    · exact Nat.lt_succ_of_lt (hwf j hj)
    · rcases List.mem_singleton.mp hj with rfl
      exact Nat.lt_succ_self _

/-- Witness for the C4 theorem on the empty store. -/
theorem createJob_returns_pending_zero_fresh_id_witness :
    (createJob w0.store cinpU 3).1.status = JobStatus.PENDING ∧
    (createJob w0.store cinpU 3).1.progress = 0 ∧
    (∀ j ∈ w0.store.jobs, j.id ≠ (createJob w0.store cinpU 3).1.id) ∧
    (createJob w0.store cinpU 3).2.WF :=
  createJob_returns_pending_zero_fresh_id w0.store cinpU 3
    (by intro j hj; simp [w0] at hj)

/-- Claim C6 counterexample: `updateJob` applies a supplied status value
unconditionally, so the COMPLETED job 7 is transitioned backward to
PENDING by a later update. -/
theorem updateJob_exits_terminal_state_counterexample :
    jobC6.status = JobStatus.COMPLETED ∧
    (updateJob storeC6 7
        { status := some JobStatus.PENDING, progress := none, currentStep := none,
          result := none, errorMessage := none } 1).toOption.map
        (fun p => p.1.status) = some JobStatus.PENDING :=
  ⟨rfl, rfl⟩

/-- Claim C6 (amended): the store never guards terminal states; a terminal
status survives a later update exactly when that update supplies no status
value, in which case the job's status is unchanged and remains terminal. -/
theorem updateJob_without_status_preserves_terminal
    (s : JobStore) (id : Nat) (input : UpdateJobInput) (now : Nat)
    (j j2 : Job) (s2 : JobStore)
    (hj : getJob s id = some j)
    (hterm : j.status = JobStatus.COMPLETED ∨ j.status = JobStatus.FAILED)
    (hns : input.status = none)
    (hup : updateJob s id input now = Except.ok (j2, s2)) :
    j2.status = j.status ∧
    (j2.status = JobStatus.COMPLETED ∨ j2.status = JobStatus.FAILED) := by
  unfold getJob at hj
  unfold updateJob at hup
  rw [hj] at hup
  have hpair := Except.ok.inj hup
  have hj2 : applyUpdate j input now = j2 := congrArg Prod.fst hpair
  have hstat : j2.status = j.status := by
    rw [← hj2]
    simp [applyUpdate, hns]
  exact ⟨hstat, by rw [hstat]; exact hterm⟩

/-- Witness for the amended C6 theorem: a progress-only update of the
COMPLETED job 7 leaves its status COMPLETED. -/
theorem updateJob_without_status_preserves_terminal_witness :
    (applyUpdate jobC6 updC6w 2).status = jobC6.status ∧
    ((applyUpdate jobC6 updC6w 2).status = JobStatus.COMPLETED ∨
      (applyUpdate jobC6 updC6w 2).status = JobStatus.FAILED) :=
  updateJob_without_status_preserves_terminal storeC6 7 updC6w 2 jobC6
    (applyUpdate jobC6 updC6w 2)
    { jobs := [applyUpdate jobC6 updC6w 2], nextId := 8 }
    rfl (Or.inl rfl) rfl rfl

/-- Claim C7: for every existing job id and partial update input,
`updateJob` succeeds, overwrites exactly the supplied (non-null) fields,
leaves every unsupplied field and the immutable columns (id, userId,
targetDate, inputData, createdAt) unchanged, always refreshes `updatedAt`,
and the store afterwards holds the returned row. -/
theorem updateJob_respects_partial_update_contract
    (s : JobStore) (id : Nat) (input : UpdateJobInput) (now : Nat) (j : Job)
    (hj : getJob s id = some j) :
    updatePartialSemantics s id input now j := by
  unfold getJob at hj
  unfold updatePartialSemantics updateJob
  rw [hj]
  have hpj := List.find?_some (p := fun (x : Job) => x.id == id) hj
  have hid : ((applyUpdate j input now).id == id) = true := hpj
  refine ⟨applyUpdate j input now, _, rfl, rfl, rfl, rfl, rfl, rfl, rfl,
    ?_, ?_, ?_, ?_, ?_, ?_, ?_, ?_, ?_, ?_, ?_⟩
  · intro h; simp [applyUpdate, h]
  · intro v hv; simp [applyUpdate, hv]
  · intro h; simp [applyUpdate, h]
  · intro v hv; simp [applyUpdate, hv]
  · intro h; simp [applyUpdate, h]
  · intro v hv; simp [applyUpdate, hv]
  · intro h; simp [applyUpdate, h]
  · intro v hv; simp [applyUpdate, hv]
  · intro h; simp [applyUpdate, h]
  · intro v hv; simp [applyUpdate, hv]
  · show getJob _ id = some (applyUpdate j input now)
    unfold getJob
    exact findJob_map_update s.jobs id j (applyUpdate j input now) hj hid

/-- Witness for the C7 theorem: a status-and-step update of job 7. -/
theorem updateJob_respects_partial_update_contract_witness :
    updatePartialSemantics storeC6 7 updC7w 3 jobC6 :=
  updateJob_respects_partial_update_contract storeC6 7 updC7w 3 jobC6 rfl

/-- Claim C1 counterexample: at the concrete submission `inpU` from the
empty deployment, an enqueue failure after a successful creation makes
`createCommuteJob` raise a result identical to the one a plain creation
failure raises — the generic INTERNAL_ERROR GraphQLError, which carries no
job id — even though the side effects differ (the row exists in the first
run and not in the second).  No distinct DispatchFailed error exists. -/
theorem dispatchFailed_not_raised_counterexample :
    (createCommuteJob w0 inpU 0 true true false).1 =
      (createCommuteJob w0 inpU 0 false false false).1 ∧
    (createCommuteJob w0 inpU 0 true true false).1 =
      Except.error (GatewayError.internalError "Failed to create commute job") ∧
    (createCommuteJob w0 inpU 0 true true false).2.store.jobs.length = 1 ∧
    (createCommuteJob w0 inpU 0 false false false).2.store.jobs.length = 0 :=
  ⟨rfl, rfl, rfl, rfl⟩

/-- Claim C1 (amended): when creation succeeds but the gateway's enqueue
fails, `createCommuteJob` raises the generic INTERNAL_ERROR
"Failed to create commute job" — the same error value a plain creation
failure produces, carrying no job id — and the created row still reads
status PENDING. -/
theorem enqueue_failure_generic_error_row_pending
    (w : World) (input : CreateCommuteJobInput) (now : Nat) (bq : Bool)
    (hu : input.userId ≠ "") (hd : input.targetDate ≠ "") (hwf : w.store.WF) :
    (createCommuteJob w input now true bq false).1 =
      Except.error (GatewayError.internalError "Failed to create commute job") ∧
    (createCommuteJob w input now true bq false).1 =
      (createCommuteJob w input now false bq true).1 ∧
    (getJob (createCommuteJob w input now true bq false).2.store w.store.nextId).map
        Job.status = some JobStatus.PENDING := by
  have hvalid : ¬(input.userId = "" ∨ input.targetDate = "") := by
    rintro (h | h)
    · exact hu h
    · exact hd h
  refine ⟨?_, ?_, ?_⟩
  · unfold createCommuteJob
    rw [if_neg hvalid]
    rfl
  · unfold createCommuteJob
    rw [if_neg hvalid, if_neg hvalid]
    rfl
  · unfold createCommuteJob
    rw [if_neg hvalid]
    show (getJob (createJob w.store
        { userId := input.userId, targetDate := input.targetDate,
          inputData := input.inputData } now).2 w.store.nextId).map Job.status =
      some JobStatus.PENDING
    rw [getJob_after_createJob w.store _ now hwf]
    rfl

/-- Witness for the amended C1 theorem at the concrete submission `inpU`
from the empty deployment. -/
theorem enqueue_failure_generic_error_row_pending_witness :
    (createCommuteJob w0 inpU 0 true true false).1 =
      Except.error (GatewayError.internalError "Failed to create commute job") ∧
    (createCommuteJob w0 inpU 0 true true false).1 =
      (createCommuteJob w0 inpU 0 false true true).1 ∧
    (getJob (createCommuteJob w0 inpU 0 true true false).2.store w0.store.nextId).map
        Job.status = some JobStatus.PENDING :=
  enqueue_failure_generic_error_row_pending w0 inpU 0 true
    (by decide) (by decide) (by intro j hj; simp [w0] at hj)

/-- Claim C2 counterexample: a single successful submission through the
gateway from the empty deployment appends two dispatch descriptors for the
created job id 0 — one pushed by the backend createJob handler and one by
the gateway resolver — not exactly one. -/
theorem single_submission_double_enqueue_counterexample :
    (createCommuteJob w0 inpU 0 true true true).1.toOption.map Job.id = some 0 ∧
    (createCommuteJob w0 inpU 0 true true true).2.queue.map Descriptor.job_id =
      [0, 0] :=
  ⟨rfl, rfl⟩

/-- Claim C2 (amended): every successful gateway submission appends exactly
two descriptors carrying the created job's id — the backend handler's
(which includes the input data) followed by the gateway's — so a queue
previously free of that id afterwards holds exactly two entries for it. -/
theorem successful_submission_appends_two_descriptors
    (w : World) (input : CreateCommuteJobInput) (now : Nat)
    (hu : input.userId ≠ "") (hd : input.targetDate ≠ "")
    (hfresh : ∀ d ∈ w.queue, d.job_id ≠ w.store.nextId) :
    (createCommuteJob w input now true true true).1.toOption.map Job.id =
      some w.store.nextId ∧
    (createCommuteJob w input now true true true).2.queue =
      (w.queue ++
        [{ job_id := w.store.nextId, user_id := input.userId,
           target_date := input.targetDate, input_data := input.inputData }]) ++
      [{ job_id := w.store.nextId, user_id := input.userId,
         target_date := input.targetDate, input_data := none }] ∧
    ((createCommuteJob w input now true true true).2.queue.filter
        (fun d => d.job_id == w.store.nextId)).length = 2 := by
  have hvalid : ¬(input.userId = "" ∨ input.targetDate = "") := by
    rintro (h | h)
    · exact hu h
    · exact hd h
  have hq : (createCommuteJob w input now true true true).2.queue =
      (w.queue ++
        [{ job_id := w.store.nextId, user_id := input.userId,
           target_date := input.targetDate, input_data := input.inputData }]) ++
      [{ job_id := w.store.nextId, user_id := input.userId,
         target_date := input.targetDate, input_data := none }] := by
    unfold createCommuteJob
    rw [if_neg hvalid]
    rfl
  have hnil : w.queue.filter (fun d => d.job_id == w.store.nextId) = [] :=
    List.filter_eq_nil_iff.mpr (fun d hd => by simpa using hfresh d hd)
  refine ⟨?_, hq, ?_⟩
  · unfold createCommuteJob
    rw [if_neg hvalid]
    rfl
  · rw [hq]
    simp [List.filter_append, hnil]

/-- Witness for the amended C2 theorem at the concrete submission `inpU`
from the empty deployment. -/
theorem successful_submission_appends_two_descriptors_witness :
    (createCommuteJob w0 inpU 0 true true true).1.toOption.map Job.id =
      some w0.store.nextId ∧
    (createCommuteJob w0 inpU 0 true true true).2.queue =
      (w0.queue ++
        [{ job_id := w0.store.nextId, user_id := inpU.userId,
           target_date := inpU.targetDate, input_data := inpU.inputData }]) ++
      [{ job_id := w0.store.nextId, user_id := inpU.userId,
         target_date := inpU.targetDate, input_data := none }] ∧
    ((createCommuteJob w0 inpU 0 true true true).2.queue.filter
        (fun d => d.job_id == w0.store.nextId)).length = 2 :=
  successful_submission_appends_two_descriptors w0 inpU 0
    (by decide) (by decide) (by intro d hd; simp [w0] at hd)

/-- Claim C8 counterexample: for the submission `inpPrefs`, which supplies
input data, the gateway-pushed descriptor (the second one on the queue)
carries only the keys job_id, user_id and target_date — the input_data key
is missing, because the gateway `JobData` has no such field. -/
theorem gateway_descriptor_missing_input_data_counterexample :
    inpPrefs.inputData = some "custom" ∧
    (createCommuteJob w0 inpPrefs 0 true true true).2.queue.map Descriptor.keys =
      [["job_id", "user_id", "target_date", "input_data"],
       ["job_id", "user_id", "target_date"]] :=
  ⟨rfl, rfl⟩

/-- Claim C8 (amended): of the two descriptors a successful submission
appends, the backend-pushed one has keys job_id, user_id, target_date plus
input_data exactly when the submission supplied input data, while the
gateway-pushed one always has exactly job_id, user_id and target_date —
it omits input_data even when the submission supplied it. -/
theorem descriptor_keys_backend_vs_gateway
    (w : World) (input : CreateCommuteJobInput) (now : Nat)
    (hu : input.userId ≠ "") (hd : input.targetDate ≠ "") :
    ∃ d1 d2 : Descriptor,
      (createCommuteJob w input now true true true).2.queue =
        (w.queue ++ [d1]) ++ [d2] ∧
      d1.job_id = w.store.nextId ∧ d2.job_id = w.store.nextId ∧
      ("input_data" ∈ d1.keys ↔ input.inputData.isSome) ∧
      (input.inputData.isSome → d1.keys =
        ["job_id", "user_id", "target_date", "input_data"]) ∧
      d2.keys = ["job_id", "user_id", "target_date"] ∧
      "input_data" ∉ d2.keys := by
  have hvalid : ¬(input.userId = "" ∨ input.targetDate = "") := by
    rintro (h | h)
    · exact hu h
    · exact hd h
  refine ⟨{ job_id := w.store.nextId, user_id := input.userId,
            target_date := input.targetDate, input_data := input.inputData },
          { job_id := w.store.nextId, user_id := input.userId,
            target_date := input.targetDate, input_data := none },
          ?_, rfl, rfl, ?_, ?_, rfl, ?_⟩
  · unfold createCommuteJob
    rw [if_neg hvalid]
    rfl
  · cases hin : input.inputData with
    | none =>
        show "input_data" ∈ (["job_id", "user_id", "target_date"] : List String) ↔
          (none : Option String).isSome = true
        decide
    | some v =>
        show "input_data" ∈
            (["job_id", "user_id", "target_date", "input_data"] : List String) ↔
          true = true
        decide
  · cases hin : input.inputData with
    | none =>
        intro hs
        simp at hs
    | some v =>
        intro hs
        rfl
  · show "input_data" ∉ (["job_id", "user_id", "target_date"] : List String)
    decide

/-- Witness for the amended C8 theorem at the concrete submission
`inpPrefs`, which supplies input data. -/
theorem descriptor_keys_backend_vs_gateway_witness :
    ∃ d1 d2 : Descriptor,
      (createCommuteJob w0 inpPrefs 0 true true true).2.queue =
        (w0.queue ++ [d1]) ++ [d2] ∧
      d1.job_id = w0.store.nextId ∧ d2.job_id = w0.store.nextId ∧
      ("input_data" ∈ d1.keys ↔ inpPrefs.inputData.isSome) ∧
      (inpPrefs.inputData.isSome → d1.keys =
        ["job_id", "user_id", "target_date", "input_data"]) ∧
      d2.keys = ["job_id", "user_id", "target_date"] ∧
      "input_data" ∉ d2.keys :=
  descriptor_keys_backend_vs_gateway w0 inpPrefs 0 (by decide) (by decide)

/-- Claim C9: on a successful gateway submission, the synthetic initial
progress event (PENDING, progress 0, step "Queued for processing") is
published to the aggregate topic only — a per-job-topic subscriber for the
created job receives nothing from this publish, while an aggregate-topic
subscriber receives exactly the initial event. -/
theorem initial_progress_published_to_aggregate_only
    (w : World) (input : CreateCommuteJobInput) (now : Nat)
    (hu : input.userId ≠ "") (hd : input.targetDate ≠ "") :
    (createCommuteJob w input now true true true).2.published =
      w.published ++ [(Topic.aggregate, initialProgress w.store.nextId now)] ∧
    deliveredTo (Topic.perJob w.store.nextId)
      [(Topic.aggregate, initialProgress w.store.nextId now)] = [] ∧
    deliveredTo Topic.aggregate
      [(Topic.aggregate, initialProgress w.store.nextId now)] =
      [initialProgress w.store.nextId now] ∧
    (createCommuteJob w input now true true true).1.toOption.map Job.id =
      some w.store.nextId ∧
    (initialProgress w.store.nextId now).status = JobStatus.PENDING ∧
    (initialProgress w.store.nextId now).progress = 0 ∧
    (initialProgress w.store.nextId now).currentStep = some "Queued for processing" := by
  have hvalid : ¬(input.userId = "" ∨ input.targetDate = "") := by
    rintro (h | h)
    · exact hu h
    · exact hd h
  refine ⟨?_, rfl, rfl, ?_, rfl, rfl, rfl⟩
  · unfold createCommuteJob
    rw [if_neg hvalid]
    rfl
  · unfold createCommuteJob
    rw [if_neg hvalid]
    rfl

/-- Witness for the C9 theorem at the concrete submission `inpU` from the
empty deployment. -/
theorem initial_progress_published_to_aggregate_only_witness :
    (createCommuteJob w0 inpU 0 true true true).2.published =
      w0.published ++ [(Topic.aggregate, initialProgress w0.store.nextId 0)] ∧
    deliveredTo (Topic.perJob w0.store.nextId)
      [(Topic.aggregate, initialProgress w0.store.nextId 0)] = [] ∧
    deliveredTo Topic.aggregate
      [(Topic.aggregate, initialProgress w0.store.nextId 0)] =
      [initialProgress w0.store.nextId 0] ∧
    (createCommuteJob w0 inpU 0 true true true).1.toOption.map Job.id =
      some w0.store.nextId ∧
    (initialProgress w0.store.nextId 0).status = JobStatus.PENDING ∧
    (initialProgress w0.store.nextId 0).progress = 0 ∧
    (initialProgress w0.store.nextId 0).currentStep = some "Queued for processing" :=
  initial_progress_published_to_aggregate_only w0 inpU 0 (by decide) (by decide)
